import Mathlib

/-!
# Verification of the session/execution server (`src/Server.js`)

Shallow embedding of the core of `src/Server.js`:

* identifier normalization and the `/api/pairing` handler (lines 74-195),
* the script-shape gate, sandbox construction and the iteration loop of the
  `/api/execute` handler (lines 198-448),
* the capability adapter exposed to sandboxed scripts (lines 237-362).

External effects (the Baileys transport, wall-clock time, the socket.io push
channel) are modelled as explicit parameters/oracles; the push channel is
modelled as the ordered list of emitted events.
-/

namespace Server

/-! ## Identifier normalization (src/Server.js line 79) -/

/-- `phone.replace(/[^0-9]/g, '')`: keep exactly the ASCII digit characters. -/
def cleanPhone (s : String) : String :=
  ⟨s.toList.filter Char.isDigit⟩

/-! ## Connection registry (src/Server.js lines 29, 115-121)

`connections` is a JS `Map` from the normalized phone string to a record
`{sock, saveCreds, status, socketId, createdAt}`.  The opaque transport handle
`sock` is modelled by a numeric handle id. -/

/-- A value of the `connections` map (src/Server.js lines 115-121). -/
structure Connection where
  status : String
  socketId : String
  createdAt : Nat
  handleId : Nat
deriving Repr, DecidableEq

/-- The `connections` map, as an association list with unique keys. -/
abbrev Registry := List (String × Connection)

/-- `connections.get(k)` (first binding of the key wins, as in a JS Map). -/
def getConn (reg : Registry) (k : String) : Option Connection :=
  match reg with
  | [] => none
  | (k', c) :: rest => if k' = k then some c else getConn rest k

/-- `connections.set(k, v)`: replace in place if the key exists, else append. -/
def setConn (reg : Registry) (k : String) (v : Connection) : Registry :=
  match reg with
  | [] => [(k, v)]
  | (k', c) :: rest => if k' = k then (k, v) :: rest else (k', c) :: setConn rest k v

/-! ## Pairing handler (src/Server.js lines 74-195) -/

/-- Responses of the `/api/pairing` handler. -/
inductive PairResp where
  /-- 400 `{success:false, error:'Nomor tidak valid'}` (line 82). -/
  | invalidNumber
  /-- `{success:true, message:'Already connected', phone}` (line 94). -/
  | alreadyConnected (phone : String)
  /-- `{success:true, message:'Pairing initiated', phone}` (line 182). -/
  | pairingInitiated (phone : String)
deriving Repr, DecidableEq

/-- Observable effect of one `/api/pairing` call: the HTTP response, the
registry afterwards, and how many new transport handles (`makeWASocket`)
were created during the call. -/
structure PairRun where
  resp : PairResp
  reg : Registry
  handlesCreated : Nat
deriving Repr, DecidableEq

/-- The `/api/pairing` handler (src/Server.js lines 74-195).  `now` models
`Date.now()` and `handleId` the transport handle a `makeWASocket` call would
produce.  Asynchronous `connection.update` events are outside this function:
they arrive later through the transport and are not part of the request. -/
def pairing (reg : Registry) (phone socketId : String) (now handleId : Nat) : PairRun :=
  let cp := cleanPhone phone
  if cp.length < 10 || cp.length > 15 then
    ⟨.invalidNumber, reg, 0⟩
  else if (match getConn reg cp with
           | some c => c.status == "connected"
           | none => false) then
    ⟨.alreadyConnected cp, reg, 0⟩
  else
    ⟨.pairingInitiated cp, setConn reg cp ⟨"connecting", socketId, now, handleId⟩, 1⟩

/-! ## Script-shape gate (src/Server.js lines 216-231)

The gate is purely textual: two `String.prototype.includes` checks, then the
first match of the regular expression `/async function\s+(\w+)/`. -/

/-- JS `\w`: ASCII letters, digits and underscore. -/
def isWordChar (c : Char) : Bool :=
  c.isAlphanum || c == '_'

/-- JS `\s` on the characters that occur in scripts: space, tab, line feed,
carriage return, vertical tab, form feed. -/
def isJsSpace (c : Char) : Bool :=
  c == ' ' || c == '\t' || c == '\n' || c == '\r' || c == '\x0b' || c == '\x0c'

/-- Does `cs` contain `pat` as a contiguous substring?  Models
`String.prototype.includes`. -/
def listHasSub (pat : List Char) : List Char → Bool
  | [] => pat.isEmpty
  | c :: rest => pat.isPrefixOf (c :: rest) || listHasSub pat rest

/-- `s.includes(pat)` (src/Server.js line 216 uses it twice). -/
def containsSub (s pat : String) : Bool :=
  listHasSub pat.toList s.toList

/-- Try to match `/async function\s+(\w+)/` at the head of `cs`, returning the
captured `\w+` group.  `\s+` and `\w+` are greedy; since `\s` and `\w` are
disjoint character classes, maximal munch is exact here. -/
def matchHere (cs : List Char) : Option (List Char) :=
  let pat := "async function".toList
  if pat.isPrefixOf cs then
    let rest := cs.drop pat.length
    let ws := rest.takeWhile isJsSpace
    if ws.isEmpty then none
    else
      let w := (rest.drop ws.length).takeWhile isWordChar
      if w.isEmpty then none else some w
  else none

/-- Leftmost match of `/async function\s+(\w+)/`, as JS `String.match`. -/
def findFnName : List Char → Option (List Char)
  | [] => none
  | c :: rest =>
    match matchHere (c :: rest) with
    | some w => some w
    | none => findFnName rest

/-- `code.match(/async function\s+(\w+)/)`, returning the captured function
name (src/Server.js line 223). -/
def fnMatch (s : String) : Option String :=
  (findFnName s.toList).map fun cs => ⟨cs⟩

/-! ## Sandbox bindings (src/Server.js lines 234-378)

The `VM` of line 234 is a vm2 `VM`: it evaluates the script in a fresh V8
context.  A fresh context already carries the global bindings every
ECMAScript realm provides (`Object`, `Function`, `eval`, `Promise`,
`globalThis`, ...); vm2 then copies the keys of the `sandbox` object onto
that global, shadowing any intrinsic of the same name (`Date`, `Math`,
`JSON` here).  So a free identifier inside the vm resolves either to a
sandbox key, or to a realm intrinsic, or not at all — Node host bindings
such as `process` and `require`, and the surrounding program state
(`connections`, `io`, `app`), are not part of a fresh realm and are never
copied in.  The eight sandbox keys are taken verbatim from the object
literal. -/

/-- Tags for the values a free identifier can resolve to inside the vm. -/
inductive SandboxVal where
  /-- The capability object `sock: {...}` (lines 237-363). -/
  | sockCap
  /-- `target: jid` (line 364). -/
  | targetJid
  /-- `console: {log: ...}` forwarding to the push channel (lines 365-371). -/
  | consoleObj
  /-- `Buffer: Buffer` (line 372). -/
  | bufferObj
  /-- `setTimeout: setTimeout` (line 373). -/
  | timerFn
  /-- `Date: Date` (line 374). -/
  | dateObj
  /-- `Math: Math` (line 375). -/
  | mathObj
  /-- `JSON: JSON` (line 376). -/
  | jsonObj
  /-- A standard ECMAScript intrinsic of the fresh realm, not supplied by
  the sandbox object. -/
  | intrinsic
deriving Repr, DecidableEq

/-- The keys of the sandbox object literal, in source order
(src/Server.js lines 236-377). -/
def sandboxKeys : List String :=
  ["sock", "target", "console", "Buffer", "setTimeout", "Date", "Math", "JSON"]

/-- The global properties of a fresh ECMAScript realm as provided by Node's
V8 (ECMA-262 clause 19 plus `Intl`, `WebAssembly` and the Annex-B
`escape`/`unescape`): the bindings a vm2 `VM` context carries before the
sandbox keys are copied onto it.  `Date`, `Math` and `JSON` are also
intrinsics but are shadowed by the sandbox keys of the same name. -/
def ecmaIntrinsics : List String :=
  ["globalThis", "Infinity", "NaN", "undefined",
   "eval", "isFinite", "isNaN", "parseFloat", "parseInt",
   "decodeURI", "decodeURIComponent", "encodeURI", "encodeURIComponent",
   "AggregateError", "Array", "ArrayBuffer", "BigInt", "BigInt64Array",
   "BigUint64Array", "Boolean", "DataView", "Date", "Error", "EvalError",
   "FinalizationRegistry", "Float32Array", "Float64Array", "Function",
   "Int8Array", "Int16Array", "Int32Array", "Map", "Number", "Object",
   "Promise", "Proxy", "RangeError", "ReferenceError", "RegExp", "Set",
   "SharedArrayBuffer", "String", "Symbol", "SyntaxError", "TypeError",
   "Uint8Array", "Uint8ClampedArray", "Uint16Array", "Uint32Array",
   "URIError", "WeakMap", "WeakRef", "WeakSet",
   "Atomics", "JSON", "Math", "Reflect",
   "Intl", "WebAssembly", "escape", "unescape"]

/-- Name resolution inside the vm context: a sandbox key resolves to its
sandbox value (shadowing an intrinsic of the same name), any other realm
intrinsic resolves to itself, and every remaining identifier is unbound
(`none`) — in particular the Node host bindings and the surrounding
program's state, which a fresh realm does not contain. -/
def resolveBinding (n : String) : Option SandboxVal :=
  if n = "sock" then some .sockCap
  else if n = "target" then some .targetJid
  else if n = "console" then some .consoleObj
  else if n = "Buffer" then some .bufferObj
  else if n = "setTimeout" then some .timerFn
  else if n = "Date" then some .dateObj
  else if n = "Math" then some .mathObj
  else if n = "JSON" then some .jsonObj
  else if n ∈ ecmaIntrinsics then some .intrinsic
  else none

/-- Modelled from the spec: the allowlist claimed in §4.3 — the capability
object, the target identity, the console primitive, and the safe utilities
"structured-data encode/decode, current time, deterministic math, byte
buffers" (`JSON`, `Date`, `Math`, `Buffer`).  For comparison with
`sandboxKeys`, which is taken from the source. -/
def specSandboxAllowlist : List String :=
  ["sock", "target", "console", "JSON", "Date", "Math", "Buffer"]

/-! ## The iteration loop (src/Server.js lines 380-434)

One iteration: emit `progress`, run the script in the vm, and then either

* the vm run rejects (script error, capability error, timeout): the `catch`
  pushes `{loop, success:false, error}` and emits a failing `result` event;
* the vm run resolves and `JSON.stringify(result)` yields a string: a
  `{loop, success:true, time}` entry is pushed and a successful `result`
  event with the 200-character truncation is emitted;
* the vm run resolves but `JSON.stringify(result).substring(0, 200)` throws
  (e.g. `result` is `undefined`, so `.substring` is read off `undefined`):
  the success entry was already pushed (line 404) before the throwing
  expression (line 413), then the `catch` pushes a failure entry as well.

The vm outcome and the serialization outcome per iteration are supplied by an
oracle `run`; elapsed `Date.now()` time is part of the oracle. -/

/-- Oracle outcome of iteration `i`: the awaited `vm.run` either throws, or
returns after `time` ms with `JSON.stringify(result)` given by `ser`
(`Except.error` = the stringify/substring expression throws). -/
inductive IterRun where
  | throws (msg : String)
  | returns (time : Nat) (ser : Except String String)

/-- An element of the `results` array (src/Server.js lines 404-408 and
418-422): JS objects `{loop, success, time}` or `{loop, success, error}`,
with the absent field as `none`. -/
structure Outcome where
  loop : Nat
  success : Bool
  time : Option Nat
  error : Option String
deriving Repr, DecidableEq

/-- Events emitted to the push channel during the loop. -/
inductive Ev where
  /-- `emit('progress', {current, total})` (line 384). -/
  | progress (current total : Nat)
  /-- `emit('result', {loop, success:true, result, time})` (line 410). -/
  | resultOk (loop : Nat) (result : String) (time : Nat)
  /-- `emit('result', {loop, success:false, error})` (line 424). -/
  | resultErr (loop : Nat) (error : String)
deriving Repr, DecidableEq

/-- The `results` entries pushed by iteration `i` (in push order). -/
def iterOutcomes (run : Nat → IterRun) (i : Nat) : List Outcome :=
  match run i with
  | .throws msg => [⟨i, false, none, some msg⟩]
  | .returns t (.ok _) => [⟨i, true, some t, none⟩]
  | .returns t (.error msg) => [⟨i, true, some t, none⟩, ⟨i, false, none, some msg⟩]

/-- The push-channel events emitted by iteration `i` (in emit order).  In the
serialization-throw case the successful `result` event is never emitted: the
throw happens while building its payload, and the `catch` emits the failing
event instead. -/
def iterEvents (total : Nat) (run : Nat → IterRun) (i : Nat) : List Ev :=
  match run i with
  | .throws msg => [.progress i total, .resultErr i msg]
  | .returns t (.ok s) => [.progress i total, .resultOk i (s.take 200) t]
  | .returns _ (.error msg) => [.progress i total, .resultErr i msg]

/-- The full `results` array after `for (let i = 1; i <= loop; i++)`. -/
def loopResults (total : Nat) (run : Nat → IterRun) : List Outcome :=
  (List.range total).flatMap fun k => iterOutcomes run (k + 1)

/-- All events emitted during the loop, in order. -/
def loopEvents (total : Nat) (run : Nat → IterRun) : List Ev :=
  (List.range total).flatMap fun k => iterEvents total run (k + 1)

/-! ## The execute handler (src/Server.js lines 198-448) -/

/-- Responses of the `/api/execute` handler. -/
inductive ExecResp where
  /-- 400 `{success:false, error:'WhatsApp tidak terhubung'}` (line 206). -/
  | notConnected
  /-- 400 `{success:false, error:'Format: async function nama(sock, target)'}` (line 217). -/
  | badFormat
  /-- 400 `{success:false, error:'Nama function tidak ditemukan'}` (line 225). -/
  | noFnName
  /-- 200 `{success:true, results}` (line 436). -/
  | ok (results : List Outcome)
deriving Repr, DecidableEq

/-- Observable effect of one `/api/execute` call: the HTTP response, the
events emitted to the push channel, and whether a `new VM({...})` sandbox was
constructed during the call. -/
structure ExecRun where
  resp : ExecResp
  events : List Ev
  sandboxBuilt : Bool
  /-- The value bound to `target` inside the sandbox, when one was built. -/
  targetBinding : Option String
deriving Repr, DecidableEq

/-- `target.includes('@s.whatsapp.net') ? target : target + '@s.whatsapp.net'`
(src/Server.js line 213): the value bound to `target` in the sandbox. -/
def jidOf (target : String) : String :=
  if containsSub target "@s.whatsapp.net" then target else target ++ "@s.whatsapp.net"

/-- The `/api/execute` handler (src/Server.js lines 198-448).  The session is
looked up under the caller-supplied `phone` string verbatim (line 203); the
script gate runs before the sandbox is constructed; per-iteration behaviour
comes from the oracle `run`. -/
def execute (reg : Registry) (phone target code : String) (loop : Nat)
    (run : Nat → IterRun) : ExecRun :=
  match getConn reg phone with
  | none => ⟨.notConnected, [], false, none⟩
  | some c =>
    if c.status ≠ "connected" then ⟨.notConnected, [], false, none⟩
    else if !(containsSub code "async function") || !(containsSub code "sock, target") then
      ⟨.badFormat, [], false, none⟩
    else
      match fnMatch code with
      | none => ⟨.noFnName, [], false, none⟩
      | some _ => ⟨.ok (loopResults loop run), loopEvents loop run, true, some (jidOf target)⟩

/-! ## Capability adapter (src/Server.js lines 237-362)

Each sandboxed operation wraps `sock.sendMessage(to, payload)`.  The
underlying transport is an oracle `Transport`; its success value carries
`result.key.id`. -/

/-- `result.key` of a transport send. -/
structure MsgKey where
  id : String
deriving Repr, DecidableEq

/-- The resolved value of `sock.sendMessage`. -/
structure SendResult where
  key : MsgKey
deriving Repr, DecidableEq

/-- The message payload objects the capability methods build for
`sock.sendMessage`.  `generic` is the passthrough `msg` object of the
sandbox `sendMessage`; coordinates are passed through untouched, so their
numeric representation is irrelevant here and kept as `Int`. -/
inductive Payload where
  | text (t : String)
  | generic (m : String)
  | image (url caption : String)
  | video (url caption : String)
  | audio (url : String)
  | contacts (displayName vcard : String)
  | location (lat lng : Int) (caption : String)
  | poll (question : String) (options : List String)
  | reaction (emoji msgId : String)
  | del (msgId : String)
deriving Repr, DecidableEq

/-- The transport handle's `sendMessage`: it either resolves with a
`SendResult` or rejects with an error message. -/
abbrev Transport := String → Payload → Except String SendResult

/-- The value a capability method resolves with: `{success:true, id}` for the
send family, `{success:true}` (no id) for `react`/`deleteMessage`. -/
structure CapOk where
  success : Bool
  id : Option String
deriving Repr, DecidableEq

/-- `sock.sendText` (src/Server.js lines 238-245). -/
def sendText (tr : Transport) (dest text : String) : Except String CapOk :=
  match tr dest (.text text) with
  | .ok r => .ok ⟨true, some r.key.id⟩
  | .error e => .error ("Gagal kirim: " ++ e)

/-- `sock.sendMessage`, the generic passthrough (lines 246-253). -/
def sendGeneric (tr : Transport) (dest msg : String) : Except String CapOk :=
  match tr dest (.generic msg) with
  | .ok r => .ok ⟨true, some r.key.id⟩
  | .error e => .error ("Gagal kirim: " ++ e)

/-- `sock.sendImage` (lines 254-264); `caption || ''` models the optional
caption. -/
def sendImage (tr : Transport) (dest url : String) (caption : Option String) :
    Except String CapOk :=
  match tr dest (.image url (caption.getD "")) with
  | .ok r => .ok ⟨true, some r.key.id⟩
  | .error e => .error ("Gagal kirim gambar: " ++ e)

/-- `sock.sendVideo` (lines 265-275). -/
def sendVideo (tr : Transport) (dest url : String) (caption : Option String) :
    Except String CapOk :=
  match tr dest (.video url (caption.getD "")) with
  | .ok r => .ok ⟨true, some r.key.id⟩
  | .error e => .error ("Gagal kirim video: " ++ e)

/-- `sock.sendAudio` (lines 276-285). -/
def sendAudio (tr : Transport) (dest url : String) : Except String CapOk :=
  match tr dest (.audio url) with
  | .ok r => .ok ⟨true, some r.key.id⟩
  | .error e => .error ("Gagal kirim audio: " ++ e)

/-- The vCard text built by `sock.sendContact` (lines 288-292). -/
def vcardOf (name number : String) : String :=
  "BEGIN:VCARD\n" ++ "VERSION:3.0\n" ++ "FN:" ++ name ++ "\n" ++
    "TEL;type=CELL;waid=" ++ number ++ ":" ++ number ++ "\n" ++ "END:VCARD"

/-- `sock.sendContact` (lines 286-304). -/
def sendContact (tr : Transport) (dest name number : String) : Except String CapOk :=
  match tr dest (.contacts name (vcardOf name number)) with
  | .ok r => .ok ⟨true, some r.key.id⟩
  | .error e => .error ("Gagal kirim kontak: " ++ e)

/-- `sock.sendLocation` (lines 305-318); `name || ''` models the optional
label. -/
def sendLocation (tr : Transport) (dest : String) (lat lng : Int)
    (name : Option String) : Except String CapOk :=
  match tr dest (.location lat lng (name.getD "")) with
  | .ok r => .ok ⟨true, some r.key.id⟩
  | .error e => .error ("Gagal kirim lokasi: " ++ e)

/-- `sock.sendPoll` (lines 319-331). -/
def sendPoll (tr : Transport) (dest question : String) (options : List String) :
    Except String CapOk :=
  match tr dest (.poll question options) with
  | .ok r => .ok ⟨true, some r.key.id⟩
  | .error e => .error ("Gagal kirim poll: " ++ e)

/-- `sock.react` (lines 332-344): resolves with `{success:true}`, no id. -/
def react (tr : Transport) (dest msgId emoji : String) : Except String CapOk :=
  match tr dest (.reaction emoji msgId) with
  | .ok _ => .ok ⟨true, none⟩
  | .error e => .error ("Gagal react: " ++ e)

/-- `sock.deleteMessage` (lines 345-354): resolves with `{success:true}`. -/
def deleteMessage (tr : Transport) (dest msgId : String) : Except String CapOk :=
  match tr dest (.del msgId) with
  | .ok _ => .ok ⟨true, none⟩
  | .error e => .error ("Gagal hapus: " ++ e)

/-- A presence/status value as seen by the script. -/
inductive Presence where
  /-- The status object resolved by `sock.fetchStatus`. -/
  | known (s : String)
  /-- The fallback `{status:'unknown'}`. -/
  | unknown
deriving Repr, DecidableEq

/-- `sock.getUserStatus` (lines 355-362): `fetchStatus` may reject
(`Except.error`) or resolve with a possibly-falsy value (`Option`); the
method itself always resolves — it is a total function into `Presence`. -/
def getUserStatus (fetchStatus : String → Except String (Option String))
    (jid : String) : Presence :=
  match fetchStatus jid with
  | .ok (some s) => .known s
  | .ok none => .unknown
  | .error _ => .unknown

/-- Modelled from the spec (§4.4): "Every send-family operation delegates to
the underlying transport handle and normalizes its result to
`{success:true, id:<transport message id>}`; any transport-level exception is
re-raised as a capability error with a domain-specific message".  For
comparison with the source-derived capability methods above. -/
def specNormalize (opMsg : String) (call : Except String SendResult) :
    Except String CapOk :=
  match call with
  | .ok r => .ok ⟨true, some r.key.id⟩
  | .error e => .error (opMsg ++ e)

/-! ## Observation functions on the event stream -/

/-- The `{current, total}` payloads of the `progress` events, in order. -/
def progressList (evs : List Ev) : List (Nat × Nat) :=
  evs.filterMap fun e =>
    match e with
    | .progress c t => some (c, t)
    | _ => none

/-- The iteration indices of the `result` events (successful or failing),
in order. -/
def resultIdxList (evs : List Ev) : List Nat :=
  evs.filterMap fun e =>
    match e with
    | .resultOk i _ _ => some i
    | .resultErr i _ => some i
    | _ => none

/-! ## Concrete fixtures used by witnesses and counterexamples -/

/-- Fixture: a registry holding one connected session under a normalized key. -/
def regFix : Registry := [("6281234567890", ⟨"connected", "s1", 0, 7⟩)]

/-- Fixture: a registry holding one connected session under the key `p`. -/
def regP : Registry := [("p", ⟨"connected", "s1", 0, 7⟩)]

/-- Fixture: a script the textual gate accepts, with a parseable name. -/
def codeFix : String := "async function f(sock, target) { return 1 }"

/-- Fixture oracle: iteration 2 throws, every other iteration returns after
3 ms with serialized result `9`. -/
def runFix : Nat → IterRun := fun i =>
  if i = 2 then .throws "boom" else .returns 3 (.ok "9")

/-- Fixture oracle: every iteration returns after 7 ms but serializing the
returned value throws (the `undefined` case of line 413). -/
def runSerFix : Nat → IterRun := fun _ =>
  .returns 7 (.error "undefined has no substring")

/-- Fixture oracle: like `runFix` except that iteration 2 succeeds. -/
def runFixAlt : Nat → IterRun := fun i =>
  if i = 2 then .returns 1 (.ok "z") else runFix i

/-! # Theorems -/

/-! ## Helper lemmas on the pairing and execute handlers -/

lemma execute_ok (reg : Registry) (phone target code : String) (loop : Nat)
    (run : Nat → IterRun) (c : Connection) (nm : String)
    (hc : getConn reg phone = some c) (hs : c.status = "connected")
    (h1 : containsSub code "async function" = true)
    (h2 : containsSub code "sock, target" = true)
    (h3 : fnMatch code = some nm) :
    execute reg phone target code loop run
      = ⟨.ok (loopResults loop run), loopEvents loop run, true, some (jidOf target)⟩ := by
  unfold execute
  rw [hc]
  simp [hs, h1, h2, h3]

/-! ## C5: identifier normalization and validation -/

/-- C5: every raw identifier is normalized by stripping the non-digit
characters, and an identifier whose normalized digit string has length
outside `[10, 15]` is rejected with the validation error before any transport
work: the registry is untouched and no transport handle is created. -/
theorem c5_identifier_validation (reg : Registry) (phone socketId : String)
    (now handleId : Nat)
    (h : (cleanPhone phone).length < 10 ∨ 15 < (cleanPhone phone).length) :
    pairing reg phone socketId now handleId = ⟨.invalidNumber, reg, 0⟩
    ∧ (cleanPhone phone).toList = phone.toList.filter Char.isDigit
    ∧ ∀ c ∈ (cleanPhone phone).toList, c.isDigit = true := by
  have hb : ((cleanPhone phone).length < 10 || (cleanPhone phone).length > 15) = true := by
    simp only [Bool.or_eq_true, decide_eq_true_eq]
    omega
  refine ⟨?_, rfl, fun c hmem => List.of_mem_filter hmem⟩
  simp [pairing, hb]

/-- Witness for C5 at the concrete input `"+62 812-345"`, which normalizes to
9 digits and is rejected. -/
theorem c5_identifier_validation_witness :
    pairing [] "+62 812-345" "s1" 0 0 = ⟨.invalidNumber, [], 0⟩ :=
  (c5_identifier_validation [] "+62 812-345" "s1" 0 0 (by decide)).1

/-! ## C6: idempotent pairing for a connected identity -/

/-- C6: a pairing request for an identity whose session is already connected
returns the `Already connected` success response, leaves the registry
untouched, and creates no second transport handle. -/
theorem c6_idempotent_pairing (reg : Registry) (phone socketId : String)
    (now handleId : Nat) (c : Connection)
    (hlo : 10 ≤ (cleanPhone phone).length) (hhi : (cleanPhone phone).length ≤ 15)
    (hc : getConn reg (cleanPhone phone) = some c)
    (hs : c.status = "connected") :
    pairing reg phone socketId now handleId
      = ⟨.alreadyConnected (cleanPhone phone), reg, 0⟩ := by
  have hb : ((cleanPhone phone).length < 10 || (cleanPhone phone).length > 15) = false := by
    simp only [Bool.or_eq_false_iff, decide_eq_false_iff_not]
    omega
  simp [pairing, hb, hc, hs]

/-- Witness for C6: pairing `"+62 812-3456-7890"` while its normalized key
`"6281234567890"` is already connected is a registry-preserving no-op. -/
theorem c6_idempotent_pairing_witness :
    pairing regFix "+62 812-3456-7890" "s2" 5 8
      = ⟨.alreadyConnected "6281234567890", regFix, 0⟩ := by
  have h := c6_idempotent_pairing regFix "+62 812-3456-7890" "s2" 5 8
    ⟨"connected", "s1", 0, 7⟩ (by decide) (by decide) (by decide) rfl
  simpa using h

/-! ## C10: execute looks the session up verbatim -/

/-- C10: the execute handler looks the session up under the caller-supplied
key verbatim; if that exact string is not a registry key, the request fails
with the not-connected error even when a connected session exists under the
normalized form of the same identifier. -/
theorem c10_execute_verbatim_lookup (reg : Registry) (phone target code : String)
    (loop : Nat) (run : Nat → IterRun) (c : Connection)
    (hmiss : getConn reg phone = none)
    (hnorm : getConn reg (cleanPhone phone) = some c)
    (hconn : c.status = "connected") :
    execute reg phone target code loop run = ⟨.notConnected, [], false, none⟩ := by
  unfold execute
  rw [hmiss]

/-- Witness for C10: `"6281234567890"` is connected, yet executing with the
formatted key `"+62 812-3456-7890"` fails with the not-connected error. -/
theorem c10_execute_verbatim_lookup_witness :
    execute regFix "+62 812-3456-7890" "t" codeFix 1 runFix
      = ⟨.notConnected, [], false, none⟩ :=
  c10_execute_verbatim_lookup regFix "+62 812-3456-7890" "t" codeFix 1 runFix
    ⟨"connected", "s1", 0, 7⟩ (by decide) (by decide) rfl

/-! ## C1: the sandbox binding allowlist -/

/-- C1 counterexample: the evaluation context does not expose *only* the
claimed allowlist (capability object, target, console, and the utilities
`JSON`/`Date`/`Math`/`Buffer`): the sandbox object additionally binds
`setTimeout` (line 373), and the fresh realm the vm2 `VM` creates also
resolves every ECMAScript intrinsic — `eval` among them — none of which is
in the claimed allowlist. -/
theorem c1_sandbox_allowlist_counterexample :
    resolveBinding "setTimeout" = some SandboxVal.timerFn
    ∧ "setTimeout" ∉ specSandboxAllowlist
    ∧ resolveBinding "eval" = some SandboxVal.intrinsic
    ∧ "eval" ∉ specSandboxAllowlist :=
  ⟨rfl, by decide, by decide, by decide⟩

/-- C1 amended: the evaluation context binds the claimed allowlist, the
timer primitive `setTimeout`, and the standard ECMAScript intrinsics of a
fresh realm (`Object`, `Function`, `eval`, `Promise`, `globalThis`, ...);
an identifier outside these fails to resolve, and in particular the Node
host bindings `process` and `require`, the filesystem/network modules and
the surrounding program's state (`connections`, `io`, `app`) are not bound
inside the context. -/
theorem c1_sandbox_allowlist :
    (∀ n : String,
      (resolveBinding n).isSome = true
        ↔ n ∈ specSandboxAllowlist ∨ n = "setTimeout" ∨ n ∈ ecmaIntrinsics)
    ∧ resolveBinding "process" = none
    ∧ resolveBinding "require" = none
    ∧ resolveBinding "fs" = none
    ∧ resolveBinding "net" = none
    ∧ resolveBinding "http" = none
    ∧ resolveBinding "child_process" = none
    ∧ resolveBinding "connections" = none
    ∧ resolveBinding "io" = none
    ∧ resolveBinding "app" = none := by
  refine ⟨fun n => ?_, by decide, by decide, by decide, by decide, by decide,
    by decide, by decide, by decide, by decide⟩
  unfold resolveBinding specSandboxAllowlist
  split_ifs with h1 h2 h3 h4 h5 h6 h7 h8 h9 <;> simp_all

/-! ## C8: the script-shape gate -/

/-- C8 counterexample: the gate is textual, not syntactic.  The script
`async function demo needs sock, target` contains no parenthesis at all, so
it cannot contain a function declaration with any parameter list; yet it
passes both `includes` checks and the name regex, the request proceeds, and
a sandbox is constructed (`sandboxBuilt = true`) — the claim says such a
script is rejected before any sandbox is constructed. -/
theorem c8_script_gate_counterexample :
    execute regP "p" "t" "async function demo needs sock, target" 0 (fun _ => .throws "")
      = ⟨.ok [], [], true, some "t@s.whatsapp.net"⟩
    ∧ "async function demo needs sock, target".toList.contains '(' = false := by
  constructor
  · rfl
  · rfl

/-- C8 amended: the gate rejects, before any sandbox is constructed, a script
missing either literal substring `async function` or `sock, target` with the
malformed-script error, and rejects a script containing both substrings but
not matching `/async function\s+(\w+)/` with the distinct
function-name-not-found error; both are synchronous 400 responses.  (The
substring check does not require the declaration or its parameter list to be
genuine, per the counterexample.) -/
theorem c8_script_gate (reg : Registry) (phone target code : String)
    (loop : Nat) (run : Nat → IterRun) (c : Connection)
    (hc : getConn reg phone = some c) (hs : c.status = "connected") :
    ((containsSub code "async function" = false ∨ containsSub code "sock, target" = false) →
      execute reg phone target code loop run = ⟨.badFormat, [], false, none⟩)
    ∧ (containsSub code "async function" = true → containsSub code "sock, target" = true →
        fnMatch code = none →
        execute reg phone target code loop run = ⟨.noFnName, [], false, none⟩)
    ∧ ExecResp.badFormat ≠ ExecResp.noFnName := by
  refine ⟨?_, ?_, by simp⟩
  · intro h
    have hb : (!(containsSub code "async function") || !(containsSub code "sock, target")) = true := by
      rcases h with h | h <;> simp [h]
    unfold execute
    rw [hc]
    simp [hs, hb]
  · intro h1 h2 h3
    unfold execute
    rw [hc]
    simp [hs, h1, h2, h3]

/-- Witness for C8: a connected session with the script `let x = 1`, which
lacks both substrings, is rejected with the malformed-script error and no
sandbox; the script `async function  (sock, target) {}` has the substrings
but no parseable name and gets the distinct error. -/
theorem c8_script_gate_witness :
    execute regP "p" "t" "let x = 1" 1 runFix = ⟨.badFormat, [], false, none⟩
    ∧ execute regP "p" "t" "async function  (sock, target) {}" 1 runFix
        = ⟨.noFnName, [], false, none⟩ := by
  constructor
  · exact (c8_script_gate regP "p" "t" "let x = 1" 1 runFix
      ⟨"connected", "s1", 0, 7⟩ rfl rfl).1 (Or.inl (by decide))
  · exact (c8_script_gate regP "p" "t" "async function  (sock, target) {}" 1 runFix
      ⟨"connected", "s1", 0, 7⟩ rfl rfl).2.1 (by decide) (by decide) (by decide)

/-! ## Helper lemmas on the iteration loop -/

lemma progressList_iterEvents (total : Nat) (run : Nat → IterRun) (i : Nat) :
    progressList (iterEvents total run i) = [(i, total)] := by
  cases hr : run i with
  | throws m => simp [iterEvents, hr, progressList]
  | returns t s => cases s <;> simp [iterEvents, hr, progressList]

lemma resultIdxList_iterEvents (total : Nat) (run : Nat → IterRun) (i : Nat) :
    resultIdxList (iterEvents total run i) = [i] := by
  cases hr : run i with
  | throws m => simp [iterEvents, hr, resultIdxList]
  | returns t s => cases s <;> simp [iterEvents, hr, resultIdxList]

lemma progressList_loopEvents (total : Nat) (run : Nat → IterRun) :
    progressList (loopEvents total run) = (List.range total).map fun k => (k + 1, total) := by
  suffices h : ∀ L : List Nat,
      progressList (L.flatMap fun k => iterEvents total run (k + 1))
        = L.map fun k => (k + 1, total) from h _
  intro L
  induction L with
  | nil => rfl
  | cons k L ih =>
    simp only [List.flatMap_cons, List.map_cons, progressList, List.filterMap_append]
    rw [← progressList, ← progressList, ih, progressList_iterEvents]
    rfl

lemma resultIdxList_loopEvents (total : Nat) (run : Nat → IterRun) :
    resultIdxList (loopEvents total run) = (List.range total).map fun k => k + 1 := by
  suffices h : ∀ L : List Nat,
      resultIdxList (L.flatMap fun k => iterEvents total run (k + 1))
        = L.map fun k => k + 1 from h _
  intro L
  induction L with
  | nil => rfl
  | cons k L ih =>
    simp only [List.flatMap_cons, List.map_cons, resultIdxList, List.filterMap_append]
    rw [← resultIdxList, ← resultIdxList, ih, resultIdxList_iterEvents]
    rfl

lemma iterOutcomes_ne_nil (run : Nat → IterRun) (i : Nat) :
    iterOutcomes run i ≠ [] := by
  cases hr : run i with
  | throws m => simp [iterOutcomes, hr]
  | returns t s => cases s <;> simp [iterOutcomes, hr]

lemma iterOutcomes_loop_eq {run : Nat → IterRun} {i : Nat} {o : Outcome}
    (h : o ∈ iterOutcomes run i) : o.loop = i := by
  cases hr : run i with
  | throws m =>
    simp only [iterOutcomes, hr, List.mem_singleton] at h
    subst h; rfl
  | returns t s =>
    cases s with
    | ok v =>
      simp only [iterOutcomes, hr, List.mem_singleton] at h
      subst h; rfl
    | error m =>
      simp only [iterOutcomes, hr, List.mem_cons, List.mem_singleton,
        List.not_mem_nil, or_false] at h
      rcases h with h | h <;> (subst h; rfl)

lemma iterOutcomes_shape {run : Nat → IterRun} {i : Nat} {o : Outcome}
    (h : o ∈ iterOutcomes run i) :
    (o.success = true → (∃ t, o.time = some t) ∧ o.error = none)
    ∧ (o.success = false → o.time = none ∧ ∃ m, o.error = some m) := by
  cases hr : run i with
  | throws m =>
    simp only [iterOutcomes, hr, List.mem_singleton] at h
    subst h; simp
  | returns t s =>
    cases s with
    | ok v =>
      simp only [iterOutcomes, hr, List.mem_singleton] at h
      subst h; simp
    | error m =>
      simp only [iterOutcomes, hr, List.mem_cons, List.mem_singleton,
        List.not_mem_nil, or_false] at h
      rcases h with h | h <;> (subst h; simp)

lemma mem_loopResults {total : Nat} {run : Nat → IterRun} {o : Outcome}
    (h : o ∈ loopResults total run) :
    1 ≤ o.loop ∧ o.loop ≤ total := by
  unfold loopResults at h
  rw [List.mem_flatMap] at h
  obtain ⟨k, hk, ho⟩ := h
  rw [List.mem_range] at hk
  have := iterOutcomes_loop_eq ho
  omega

lemma iterOutcomes_congr {run run' : Nat → IterRun} {i : Nat} (h : run i = run' i) :
    iterOutcomes run i = iterOutcomes run' i := by
  unfold iterOutcomes
  rw [h]

lemma filter_iterOutcomes_ne (run : Nat → IterRun) (k : Nat) :
    (iterOutcomes run k).filter (fun o => o.loop != k) = [] := by
  cases hr : run k with
  | throws m => simp [iterOutcomes, hr]
  | returns t s => cases s <;> simp [iterOutcomes, hr]

lemma loopResults_filter_indep (total : Nat) (run run' : Nat → IterRun) (k : Nat)
    (h : ∀ j, j ≠ k → run j = run' j) :
    (loopResults total run).filter (fun o => o.loop != k)
      = (loopResults total run').filter (fun o => o.loop != k) := by
  unfold loopResults
  suffices hs : ∀ L : List Nat,
      ((L.flatMap fun j => iterOutcomes run (j + 1)).filter fun o => o.loop != k)
        = ((L.flatMap fun j => iterOutcomes run' (j + 1)).filter fun o => o.loop != k)
    from hs _
  intro L
  induction L with
  | nil => rfl
  | cons j L ih =>
    simp only [List.flatMap_cons, List.filter_append]
    rw [ih]
    congr 1
    by_cases hj : j + 1 = k
    · rw [hj, filter_iterOutcomes_ne, filter_iterOutcomes_ne]
    · rw [iterOutcomes_congr (h (j + 1) hj)]

lemma sorted_loopResults (total : Nat) (run : Nat → IterRun) :
    List.Sorted (· ≤ ·) ((loopResults total run).map Outcome.loop) := by
  induction total with
  | zero => simp [loopResults]
  | succ n ih =>
    have hsplit : loopResults (n + 1) run = loopResults n run ++ iterOutcomes run (n + 1) := by
      simp [loopResults, List.range_succ]
    rw [hsplit, List.map_append]
    refine List.pairwise_append.mpr ⟨ih, ?_, ?_⟩
    · cases hr : run (n + 1) with
      | throws m => simp [iterOutcomes, hr]
      | returns t s => cases s <;> simp [iterOutcomes, hr]
    · intro a ha b hb
      rw [List.mem_map] at ha hb
      obtain ⟨o, ho, rfl⟩ := ha
      obtain ⟨o', ho', rfl⟩ := hb
      have hb1 := mem_loopResults ho
      have hb2 := iterOutcomes_loop_eq ho'
      omega

/-! ## C2: loop totality of the event stream -/

/-- C2: for a request that passes the pre-loop checks, the loop emits exactly
`loop` progress events, each carrying `{current := i, total := loop}` for
`i = 1..loop` in order, and exactly `loop` result events with iteration
indices `1..loop` in strictly increasing order — no gaps, no duplicates —
regardless of how the individual iterations fare (the oracle `run` is
universally quantified). -/
theorem c2_loop_totality (reg : Registry) (phone target code : String)
    (loop : Nat) (run : Nat → IterRun) (c : Connection) (nm : String)
    (hc : getConn reg phone = some c) (hs : c.status = "connected")
    (h1 : containsSub code "async function" = true)
    (h2 : containsSub code "sock, target" = true)
    (h3 : fnMatch code = some nm) :
    progressList (execute reg phone target code loop run).events
      = (List.range loop).map (fun k => (k + 1, loop))
    ∧ resultIdxList (execute reg phone target code loop run).events
      = (List.range loop).map (fun k => k + 1) := by
  rw [execute_ok reg phone target code loop run c nm hc hs h1 h2 h3]
  exact ⟨progressList_loopEvents loop run, resultIdxList_loopEvents loop run⟩

/-- Witness for C2 with `loop = 2` and an oracle whose second iteration
throws: the two progress and two result events still come out in order. -/
theorem c2_loop_totality_witness :
    progressList (execute regP "p" "t" codeFix 2 runFix).events = [(1, 2), (2, 2)]
    ∧ resultIdxList (execute regP "p" "t" codeFix 2 runFix).events = [1, 2] := by
  have h := c2_loop_totality regP "p" "t" codeFix 2 runFix
    ⟨"connected", "s1", 0, 7⟩ "f" rfl rfl rfl rfl rfl
  exact ⟨h.1.trans (by rfl), h.2.trans (by rfl)⟩

/-! ## C3: partial-failure independence -/

/-- C3 counterexample: with `loop = 1` and an iteration whose vm run resolves
but whose result serialization throws (line 413), the handler still answers
success, but the returned outcome sequence has two entries — the success
entry pushed at line 404 and the failure entry pushed by the catch at line
418 — so its length is 2, not the loop count 1 the claim promises. -/
theorem c3_counterexample :
    (execute regP "p" "t" codeFix 1 runSerFix).resp = .ok (loopResults 1 runSerFix)
    ∧ (loopResults 1 runSerFix).length = 2 :=
  ⟨rfl, rfl⟩

/-- C3 amended: no iteration-level error aborts the loop — whatever the
per-iteration oracle does, a validated request answers with the 200 response
carrying the outcomes of all `loop` iterations, every iteration `1..loop`
contributes at least one recorded outcome, and changing the behaviour of one
iteration `k` leaves the recorded outcomes of every other iteration
unchanged.  (The sequence has exactly one entry per iteration except when an
iteration hits the serialization throw of line 413, which contributes a
success and a failure entry, so the length can exceed `loop`.) -/
theorem c3_partial_failure_independence (reg : Registry)
    (phone target code : String) (loop : Nat) (run : Nat → IterRun)
    (c : Connection) (nm : String)
    (hc : getConn reg phone = some c) (hs : c.status = "connected")
    (h1 : containsSub code "async function" = true)
    (h2 : containsSub code "sock, target" = true)
    (h3 : fnMatch code = some nm) :
    (execute reg phone target code loop run).resp = .ok (loopResults loop run)
    ∧ (∀ i, 1 ≤ i → i ≤ loop → ∃ o ∈ loopResults loop run, o.loop = i)
    ∧ (∀ run' k, (∀ j, j ≠ k → run j = run' j) →
        (loopResults loop run).filter (fun o => o.loop != k)
          = (loopResults loop run').filter (fun o => o.loop != k)) := by
  refine ⟨?_, ?_, fun run' k hk => loopResults_filter_indep loop run run' k hk⟩
  · rw [execute_ok reg phone target code loop run c nm hc hs h1 h2 h3]
  · intro i hi1 hi2
    obtain ⟨o, ho⟩ := List.exists_mem_of_ne_nil _ (iterOutcomes_ne_nil run i)
    refine ⟨o, ?_, iterOutcomes_loop_eq ho⟩
    unfold loopResults
    rw [List.mem_flatMap]
    exact ⟨i - 1, by rw [List.mem_range]; omega,
      by rw [show i - 1 + 1 = i by omega]; exact ho⟩

/-- Witness for C3 at `loop = 3` with iteration 2 throwing: the response is
the 200 with all three iterations, iteration 2 is recorded, and replacing
iteration 2 by a succeeding one leaves the other recorded outcomes
untouched. -/
theorem c3_partial_failure_independence_witness :
    (execute regP "p" "t" codeFix 3 runFix).resp = .ok (loopResults 3 runFix)
    ∧ (∃ o ∈ loopResults 3 runFix, o.loop = 2)
    ∧ (loopResults 3 runFix).filter (fun o => o.loop != 2)
        = (loopResults 3 runFixAlt).filter (fun o => o.loop != 2) := by
  have h := c3_partial_failure_independence regP "p" "t" codeFix 3 runFix
    ⟨"connected", "s1", 0, 7⟩ "f" rfl rfl rfl rfl rfl
  exact ⟨h.1, h.2.1 2 (by omega) (by omega),
    h.2.2 runFixAlt 2 (fun j hj => by simp [runFixAlt, hj])⟩

/-! ## C4: the shape of recorded outcomes -/

/-- C4 counterexample: a failed iteration is recorded as
`{loop, success:false, error}` with no elapsed time (lines 418-422), while
the claim says every recorded outcome contains the elapsed time of its
iteration.  (Symmetrically, the success entries of lines 404-408 carry no
result summary — the truncated summary exists only in the emitted event.) -/
theorem c4_counterexample :
    loopResults 1 (fun _ => .throws "boom") = [⟨1, false, none, some "boom"⟩]
    ∧ (Outcome.mk 1 false none (some "boom")).time = none :=
  ⟨rfl, rfl⟩

/-- C4 amended: every recorded outcome carries the 1-based iteration index in
`1..loop` and the success flag; a success entry carries the elapsed time and
no error, a failure entry carries the error message and no elapsed time (and
no entry carries a result summary — the truncated summary appears only in
the emitted result event); the sequence is ordered by iteration index and is
append-only: running one more iteration extends it on the right. -/
theorem c4_outcome_shape (loop : Nat) (run : Nat → IterRun) :
    (∀ o ∈ loopResults loop run,
        (1 ≤ o.loop ∧ o.loop ≤ loop)
        ∧ (o.success = true → (∃ t, o.time = some t) ∧ o.error = none)
        ∧ (o.success = false → o.time = none ∧ ∃ m, o.error = some m))
    ∧ List.Sorted (· ≤ ·) ((loopResults loop run).map Outcome.loop)
    ∧ loopResults (loop + 1) run = loopResults loop run ++ iterOutcomes run (loop + 1) := by
  refine ⟨fun o ho => ⟨mem_loopResults ho, ?_⟩, sorted_loopResults loop run, ?_⟩
  · unfold loopResults at ho
    rw [List.mem_flatMap] at ho
    obtain ⟨k, _, ho⟩ := ho
    exact iterOutcomes_shape ho
  · simp [loopResults, List.range_succ]

/-- Witness for C4: the success entry of iteration 1 carries a time and no
error; the failure entry of iteration 2 carries an error and no time. -/
theorem c4_outcome_shape_witness :
    ((∃ t, (Outcome.mk 1 true (some 3) none).time = some t)
      ∧ (Outcome.mk 1 true (some 3) none).error = none)
    ∧ ((Outcome.mk 2 false none (some "boom")).time = none
      ∧ ∃ m, (Outcome.mk 2 false none (some "boom")).error = some m) := by
  refine ⟨?_, ?_⟩
  · exact ((c4_outcome_shape 3 runFix).1 ⟨1, true, some 3, none⟩ (by decide)).2.1 rfl
  · exact ((c4_outcome_shape 3 runFix).1 ⟨2, false, none, some "boom"⟩ (by decide)).2.2 rfl

/-! ## C9: the serialization-throw corner -/

/-- C9 counterexample: with `loop = 1` and the script resolving to a value
whose serialization throws, the returned sequence starts with a success
entry `{loop:1, success:true, time:7}` — pushed at line 404 before the
throwing expression of line 413 — so the iteration *is* recorded as a
success (and additionally as a failure), contradicting the claim that it is
recorded as failed and not as a success. -/
theorem c9_counterexample :
    (execute regP "p" "t" codeFix 1 runSerFix).resp
      = .ok [⟨1, true, some 7, none⟩, ⟨1, false, none, some "undefined has no substring"⟩]
    ∧ (⟨1, true, some 7, none⟩ : Outcome) ∈ loopResults 1 runSerFix :=
  ⟨rfl, by decide⟩

/-- C9 amended: when iteration `i` resolves but serializing its result
throws, the iteration contributes first a success entry (with elapsed time,
pushed before serialization) and then a failure entry (with the error
message) to the recorded results, both of which appear in the returned
sequence; on the push channel it is reported only as a failure — the emitted
events are the progress event and a failing result event, with no successful
result event. -/
theorem c9_serialization_failure (total : Nat) (run : Nat → IterRun)
    (i t : Nat) (m : String) (hi1 : 1 ≤ i) (hi2 : i ≤ total)
    (hr : run i = .returns t (.error m)) :
    iterOutcomes run i = [⟨i, true, some t, none⟩, ⟨i, false, none, some m⟩]
    ∧ iterEvents total run i = [.progress i total, .resultErr i m]
    ∧ (⟨i, true, some t, none⟩ : Outcome) ∈ loopResults total run
    ∧ (⟨i, false, none, some m⟩ : Outcome) ∈ loopResults total run := by
  have ho : iterOutcomes run i = [⟨i, true, some t, none⟩, ⟨i, false, none, some m⟩] := by
    simp [iterOutcomes, hr]
  refine ⟨ho, by simp [iterEvents, hr], ?_, ?_⟩
  · unfold loopResults
    rw [List.mem_flatMap]
    exact ⟨i - 1, by rw [List.mem_range]; omega,
      by rw [show i - 1 + 1 = i by omega, ho]; simp⟩
  · unfold loopResults
    rw [List.mem_flatMap]
    exact ⟨i - 1, by rw [List.mem_range]; omega,
      by rw [show i - 1 + 1 = i by omega, ho]; simp⟩

/-- Witness for C9 at iteration 1 of `runSerFix`. -/
theorem c9_serialization_failure_witness :
    iterOutcomes runSerFix 1
      = [⟨1, true, some 7, none⟩, ⟨1, false, none, some "undefined has no substring"⟩]
    ∧ (⟨1, false, none, some "undefined has no substring"⟩ : Outcome)
        ∈ loopResults 1 runSerFix := by
  have h := c9_serialization_failure 1 runSerFix 1 7 "undefined has no substring"
    (by omega) (by omega) rfl
  exact ⟨h.1, h.2.2.2⟩

/-! ## C7: capability normalization and error wrapping -/

/-- C7: every send-family capability operation agrees with the spec-side
normalization `specNormalize` applied to its transport call — on transport
success it resolves to `{success:true, id:<transport message id>}`, on
transport failure it raises a capability error prefixed by its own
operation message; the raised message wraps and never equals the raw
transport error; and `getUserStatus` (the presence lookup) never raises —
it is total into `Presence` — and yields `unknown` on any lookup failure. -/
theorem c7_capability_normalization :
    (∀ tr dest text, sendText tr dest text
      = specNormalize "Gagal kirim: " (tr dest (.text text)))
    ∧ (∀ tr dest msg, sendGeneric tr dest msg
      = specNormalize "Gagal kirim: " (tr dest (.generic msg)))
    ∧ (∀ tr dest url cap, sendImage tr dest url cap
      = specNormalize "Gagal kirim gambar: " (tr dest (.image url (cap.getD ""))))
    ∧ (∀ tr dest url cap, sendVideo tr dest url cap
      = specNormalize "Gagal kirim video: " (tr dest (.video url (cap.getD ""))))
    ∧ (∀ tr dest url, sendAudio tr dest url
      = specNormalize "Gagal kirim audio: " (tr dest (.audio url)))
    ∧ (∀ tr dest name number, sendContact tr dest name number
      = specNormalize "Gagal kirim kontak: " (tr dest (.contacts name (vcardOf name number))))
    ∧ (∀ tr dest lat lng nm, sendLocation tr dest lat lng nm
      = specNormalize "Gagal kirim lokasi: " (tr dest (.location lat lng (nm.getD ""))))
    ∧ (∀ tr dest q opts, sendPoll tr dest q opts
      = specNormalize "Gagal kirim poll: " (tr dest (.poll q opts)))
    ∧ (∀ tr dest text e, tr dest (.text text) = .error e →
        sendText tr dest text = .error ("Gagal kirim: " ++ e)
        ∧ "Gagal kirim: " ++ e ≠ e)
    ∧ (∀ fs jid e, fs jid = .error e → getUserStatus fs jid = .unknown) := by
  refine ⟨?_, ?_, ?_, ?_, ?_, ?_, ?_, ?_, ?_, ?_⟩
  · intro tr dest text
    cases h : tr dest (.text text) <;> simp [sendText, specNormalize, h]
  · intro tr dest msg
    cases h : tr dest (.generic msg) <;> simp [sendGeneric, specNormalize, h]
  · intro tr dest url cap
    cases h : tr dest (.image url (cap.getD "")) <;> simp [sendImage, specNormalize, h]
  · intro tr dest url cap
    cases h : tr dest (.video url (cap.getD "")) <;> simp [sendVideo, specNormalize, h]
  · intro tr dest url
    cases h : tr dest (.audio url) <;> simp [sendAudio, specNormalize, h]
  · intro tr dest name number
    cases h : tr dest (.contacts name (vcardOf name number)) <;>
      simp [sendContact, specNormalize, h]
  · intro tr dest lat lng nm
    cases h : tr dest (.location lat lng (nm.getD "")) <;>
      simp [sendLocation, specNormalize, h]
  · intro tr dest q opts
    cases h : tr dest (.poll q opts) <;> simp [sendPoll, specNormalize, h]
  · intro tr dest text e he
    refine ⟨by simp [sendText, he], fun hcontra => ?_⟩
    have hlen := congrArg String.length hcontra
    rw [String.length_append] at hlen
    simp at hlen
    exact absurd hlen (by decide)
  · intro fs jid e he
    simp [getUserStatus, he]

/-- Witness for C7: a transport that rejects with `boom` makes `sendText`
raise the wrapped capability error, and a rejecting presence lookup yields
`unknown`. -/
theorem c7_capability_normalization_witness :
    sendText (fun _ _ => .error "boom") "62@s" "hi" = .error ("Gagal kirim: " ++ "boom")
    ∧ getUserStatus (fun _ => .error "boom") "62@s" = Presence.unknown := by
  refine ⟨?_, ?_⟩
  · exact (c7_capability_normalization.2.2.2.2.2.2.2.2.1
      (fun _ _ => .error "boom") "62@s" "hi" "boom" rfl).1
  · exact c7_capability_normalization.2.2.2.2.2.2.2.2.2
      (fun _ => .error "boom") "62@s" "boom" rfl

end Server
